import Mathlib

/-!
Verification of the Quest_Scraper repository (MultiScraper/QuestScraper.py and
SingelRunScraper/QuestScraperSingelRun.py) against its specification.

The HTML parsing layer (`parse_data`) is embedded over an explicit DOM tree
(the tree BeautifulSoup produces from the markup), together with the raw
markup string, since the code first tests the raw string for emptiness and
then only navigates the parsed tree.  The Selenium interaction layer is
embedded over an environment recording the outcome of each externally
observable step of one attempt (navigation, element waits, the echoed input
value, the page source), and the batch orchestrator over a list of per-user
environments, producing a trace of observable events (log entries, artifact
writes, sleeps, the driver quit).
-/

/-- A node of the parsed HTML tree.  BeautifulSoup keeps the multi-valued
`class` attribute separate from the other attributes (`get("class", [])`
yields a list), so classes are stored as their own field. -/
inductive Node where
  | text (s : String)
  | elem (tag : String) (attrs : List (String × String)) (classes : List String)
      (children : List Node)

mutual

/-- All descendants of a node in document order (pre-order), excluding the
node itself; this is the search space of BeautifulSoup `find` and
`find_all` called on a tag. -/
def descOf : Node → List Node
  | .text _ => []
  | .elem _ _ _ cs => descList cs

/-- All nodes of a forest in document order: each root followed by its
descendants; this is the search space of `find_all` called on the soup. -/
def descList : List Node → List Node
  | [] => []
  | n :: rest => n :: (descOf n ++ descList rest)

end

/-- Attribute lookup in an attribute list (first binding wins). -/
def attrLookup (attrs : List (String × String)) (k : String) : Option String :=
  (attrs.find? (fun p => p.1 = k)).map (fun p => p.2)

/-- `tag.get(k)` / `tag[k]` for a non-class attribute. -/
def Node.getAttr : Node → String → Option String
  | .text _, _ => none
  | .elem _ attrs _ _, k => attrLookup attrs k

/-- `tag.get("class", [])`. -/
def Node.classList : Node → List String
  | .text _ => []
  | .elem _ _ cs _ => cs

/-- The children of a node (`tag.contents`). -/
def Node.childList : Node → List Node
  | .text _ => []
  | .elem _ _ _ cs => cs

/-- `find_all(pred)` on the soup: all matching nodes of the document in
document order. -/
def findAllIn (p : Node → Bool) (dom : List Node) : List Node :=
  (descList dom).filter p

/-- `tag.find(pred)`: the first matching descendant, if any. -/
def Node.findFirst (n : Node) (p : Node → Bool) : Option Node :=
  ((descOf n).filter p).head?

/-- Matches `soup.find_all("div", class_="div-col")`: a div whose class list
contains the marker class. -/
def isDivCol : Node → Bool
  | .elem "div" _ cs _ => cs.contains "div-col"
  | _ => false

/-- Matches `link.find("span", class_="rs-qc-icon")`. -/
def isQcIconSpan : Node → Bool
  | .elem "span" _ cs _ => cs.contains "rs-qc-icon"
  | _ => false

/-- Matches `qc_icon_span.find("img")`. -/
def isImg : Node → Bool
  | .elem "img" _ _ _ => true
  | _ => false

/-- Matches `container.find_all("a", href=True, title=True)`: an anchor
carrying both an href and a title attribute. -/
def isQuestLink : Node → Bool
  | .elem "a" attrs _ _ => (attrLookup attrs "href").isSome && (attrLookup attrs "title").isSome
  | _ => false

/-- Whether one character list starts with another. -/
def listStartsWith : List Char → List Char → Bool
  | _, [] => true
  | [], _ :: _ => false
  | a :: s, b :: p => a = b && listStartsWith s p

/-- Python `s.startswith(p)`. -/
def pyStartsWith (s p : String) : Bool := listStartsWith s.data p.data

/-- Python `str.isspace` for one character, on the ASCII whitespace set that
`str.strip()` removes. -/
def py_isspace (c : Char) : Bool :=
  c = ' ' || c = '\t' || c = '\n' || c = '\r' || c = '\x0b' || c = '\x0c'

/-- Python `str.strip()` at the character-list level: drop whitespace from
both ends. -/
def stripChars (l : List Char) : List Char :=
  ((l.dropWhile py_isspace).reverse.dropWhile py_isspace).reverse

/-- Python `str.strip()`. -/
def pyStrip (s : String) : String := String.mk (stripChars s.data)

/-- Python `"".join(pieces)`. -/
def joinStr : List String → String
  | [] => ""
  | s :: rest => s ++ joinStr rest

/-- A text child, if the node is a string node. -/
def nodeText : Node → Option String
  | .text s => some s
  | _ => none

/-- `tag.get_text(strip=True)`: every string in the subtree, stripped, then
concatenated. -/
def Node.getTextStrip (n : Node) : String :=
  joinStr (((n :: descOf n).filterMap nodeText).map pyStrip)

/-- A scraped quest entry: `{"title": ..., "status": ...}`. -/
structure QuestRecord where
  title : String
  status : String
deriving DecidableEq, Repr

/-- Status classification of the icon image class list
(lines 185-190 of QuestScraper.py): `qc-complete` is tested first,
`qc-not-started` only in the elif branch, anything else stays `unknown`. -/
def classify (img_classes : List String) : String :=
  if img_classes.contains "qc-complete" then "complete"
  else if img_classes.contains "qc-not-started" then "not started"
  else "unknown"

/-- Title resolution (lines 193-195 of QuestScraper.py):
`link.get("title", "").strip()`, and when that is empty,
`link.contents[0].strip() if link.contents else link.get_text(strip=True)`.
When the first child is a tag rather than a string, `.strip()` raises
AttributeError, modelled as `.error`. -/
def resolveTitle (link : Node) : Except Unit String :=
  if pyStrip ((link.getAttr "title").getD "") = "" then
    match link.childList with
    | [] => .ok link.getTextStrip
    | c :: _ =>
      match c with
      | .text s => .ok (pyStrip s)
      | .elem _ _ _ _ => .error ()
  else .ok (pyStrip ((link.getAttr "title").getD ""))

/-- Processing of one enumerated anchor (lines 178-201 of QuestScraper.py):
filter on the href, locate the icon span and its image, classify the
status, resolve the title, and emit a record only when the status is not
the `unknown` sentinel.  `.error` is a raised exception reaching the
per-link handler; `.ok none` is an anchor filtered out or discarded. -/
def processLink (link : Node) : Except Unit (Option QuestRecord) :=
  match link.getAttr "href" with
  | none => .error ()
  | some href =>
    if pyStartsWith href "/w/" then
      match link.findFirst isQcIconSpan with
      | none => .ok none
      | some sp =>
        match sp.findFirst isImg with
        | none => .ok none
        | some img =>
          match resolveTitle link with
          | .error e => .error e
          | .ok title =>
            if classify img.classList = "unknown" then .ok none
            else .ok (some ⟨title, classify img.classList⟩)
    else .ok none

/-- The inner loops of parse_data: process the enumerated anchors in order,
collecting emitted records and counting per-link errors (each of which the
code logs and swallows). -/
def processLinks : List Node → List QuestRecord × Nat
  | [] => ([], 0)
  | l :: rest =>
    let t := processLinks rest
    match processLink l with
    | .error _ => (t.1, t.2 + 1)
    | .ok none => (t.1, t.2)
    | .ok (some r) => (r :: t.1, t.2)

/-- The anchors enumerated inside one container:
`container.find_all("a", href=True, title=True)`. -/
def linksOf (container : Node) : List Node :=
  (descOf container).filter isQuestLink

/-- Outcome of parse_data: the returned list, the number of per-link error
log entries, and the number of structural warning log entries. -/
structure ParseResult where
  records : List QuestRecord
  linkErrors : Nat
  structuralWarnings : Nat
deriving DecidableEq, Repr

/-- `parse_data(html_content, username)` (lines 148-225 of QuestScraper.py;
the parse_data of QuestScraperSingelRun.py is the same logic).  The raw
string is tested for falsiness before parsing; the username only feeds log
texts, so it does not appear.  `dom` is the tree BeautifulSoup builds from
the markup. -/
def parse_data (html_content : String) (dom : List Node) : ParseResult :=
  if html_content = "" then ⟨[], 0, 0⟩
  else
    let containers := findAllIn isDivCol dom
    if containers.isEmpty then ⟨[], 0, 1⟩
    else
      let t := processLinks (containers.flatMap linksOf)
      ⟨t.1, t.2, 0⟩

/-- The full enumeration of anchors the parser iterates over: nothing for a
falsy input string, otherwise the anchors of each marker container in
document order. -/
def allQuestLinks (html_content : String) (dom : List Node) : List Node :=
  if html_content = "" then [] else (findAllIn isDivCol dom).flatMap linksOf

/-- Python single-character `str.isalnum`.  Python is Unicode-aware; the
model is exact for every code point below 0x100 (ASCII letters and digits,
and the Latin-1 letters, ordinal indicators, micro sign, superscript and
fraction digits).  Code points at 0x100 and above are outside the scope of
this development (every theorem that touches the sanitizer restricts its
input below 0x100), so the definition returns false there. -/
def py_isalnum (c : Char) : Bool :=
  if c.val < 0x80 then c.isAlphanum
  else if c.val < 0x100 then
    c.val = 0xAA || c.val = 0xB5 || c.val = 0xBA ||
    c.val = 0xB2 || c.val = 0xB3 || c.val = 0xB9 ||
    (0xBC ≤ c.val && c.val ≤ 0xBE) ||
    (0xC0 ≤ c.val && c.val ≠ 0xD7 && c.val ≠ 0xF7)
  else false

/-- Line 297 of QuestScraper.py:
`"".join(c if c.isalnum() or c in ("-", "_") else "_" for c in username)`. -/
def safe_username (username : String) : String :=
  String.mk (username.data.map fun c =>
    if py_isalnum c || c = '-' || c = '_' then c else '_')

/-- Line 298 of QuestScraper.py: the output artifact name from the template
`"{username}_quest_status.json"` applied to the sanitized username. -/
def output_filename (username : String) : String :=
  safe_username username ++ "_quest_status.json"

/-- The externally observable outcome of each time-boxed step of one
interaction attempt: whether navigation succeeds, whether the username
input becomes visible in time, the value the input field echoes back after
`send_keys`, whether the lookup button becomes clickable in time, whether
the results container appears in time, and the page source captured at the
end. -/
structure InteractionEnv where
  navigateOk : Bool
  inputVisible : Bool
  echoValue : String
  buttonClickable : Bool
  containerAppears : Bool
  pageSource : String

/-- One attempt of the batch driver (the try body of lines 84-133 of
QuestScraper.py): navigate, wait for the input, send keys and verify the
echoed value (raising on mismatch, line 105), wait for and click the
button, wait for the results container, settle, and return the page
source.  `none` is any exception reaching the per-attempt handler. -/
def attemptMulti (env : InteractionEnv) (username : String) : Option String :=
  if !env.navigateOk then none
  else if !env.inputVisible then none
  else if env.echoValue ≠ username then none
  else if !env.buttonClickable then none
  else if !env.containerAppears then none
  else some env.pageSource

/-- One attempt of the single-run driver (lines 73-130 of
QuestScraperSingelRun.py): the same steps except that the echoed input
value is never read back or verified.  `none` is any exception reaching
one of its handlers. -/
def attemptSingle (env : InteractionEnv) (_username : String) : Option String :=
  if !env.navigateOk then none
  else if !env.inputVisible then none
  else if !env.buttonClickable then none
  else if !env.containerAppears then none
  else some env.pageSource

/-- `fetch_and_interact` of QuestScraperSingelRun.py performs exactly one
attempt and returns its outcome. -/
def fetch_and_interact_single (env : InteractionEnv) (username : String) : Option String :=
  attemptSingle env username

/-- Observable trace of one batch-driver call: the returned page source (or
None), how many attempts ran, how many attempt-failure entries were
logged, and the durations of the sleeps taken between attempts. -/
structure FetchTrace where
  result : Option String
  attemptsMade : Nat
  attemptFailLogs : Nat
  sleepsBetween : List Nat
deriving DecidableEq, Repr

/-- The retry loop of the batch driver (lines 82-145 of QuestScraper.py),
iterating over the remaining attempt indices of `range(attempts)`: a
successful attempt returns the page source at once; a failed attempt logs
once, and either sleeps 2 seconds and retries (when attempts remain) or
returns None.  The `[]` case is the fall-through `return None` of line
145. -/
def fetchLoop (env : Nat → InteractionEnv) (username : String) : List Nat → FetchTrace
  | [] => ⟨none, 0, 0, []⟩
  | k :: rest =>
    match attemptMulti (env k) username with
    | some html => ⟨some html, 1, 0, []⟩
    | none =>
      if rest.isEmpty then ⟨none, 1, 1, []⟩
      else
        let t := fetchLoop env username rest
        ⟨t.result, t.attemptsMade + 1, t.attemptFailLogs + 1, 2 :: t.sleepsBetween⟩

/-- `fetch_and_interact` of QuestScraper.py: the retry loop over
`range(3)`, with the outcome of attempt `k` given by `env k`. -/
def fetch_and_interact (env : Nat → InteractionEnv) (username : String) : FetchTrace :=
  fetchLoop env username (List.range 3)

/-- Everything the batch run needs about one username: the name, the
per-attempt step outcomes, the DOM that BeautifulSoup builds from the page
source the driver returns, and whether an unexpected exception escapes
while this user is processed (modelling the outer except of lines
312-315). -/
structure UserSpec where
  name : String
  env : Nat → InteractionEnv
  dom : List Node
  raisesUnexpected : Bool

/-- Observable events of the batch run: timestamped log entries (by kind
and username), artifact writes, the politeness sleeps, and the driver
quit. -/
inductive Event where
  | attemptFailLog (user : String)
  | fetchFailedLog (user : String)
  | structuralWarnLog (user : String)
  | linkErrorLog (user : String)
  | artifactWrite (filename : String) (data : List QuestRecord)
  | sleepBetweenUsers (seconds : Nat)
  | mainLoopErrorLog
  | quitDriver
deriving DecidableEq, Repr

/-- One iteration of the processing loop (lines 294-310 of
QuestScraper.py): fetch (logging each failed attempt), then on a truthy
page source parse (logging its warnings and errors) and save the artifact
only when the record list is non-empty, or on a falsy result log the
fetch-failure entry; finally the 2-second politeness sleep. -/
def processUser (u : UserSpec) : List Event :=
  let t := fetch_and_interact u.env u.name
  let fetchEvents := List.replicate t.attemptFailLogs (Event.attemptFailLog u.name)
  match t.result with
  | some html =>
    if html = "" then
      fetchEvents ++ [Event.fetchFailedLog u.name, Event.sleepBetweenUsers 2]
    else
      let pr := parse_data html u.dom
      fetchEvents ++
        List.replicate pr.structuralWarnings (Event.structuralWarnLog u.name) ++
        List.replicate pr.linkErrors (Event.linkErrorLog u.name) ++
        (if pr.records.isEmpty then []
         else [Event.artifactWrite (output_filename u.name) pr.records]) ++
        [Event.sleepBetweenUsers 2]
  | none => fetchEvents ++ [Event.fetchFailedLog u.name, Event.sleepBetweenUsers 2]

/-- The processing loop over the username list; the Bool records whether an
unexpected exception escaped the loop (to be caught by the except of line
312, cutting the remaining users off). -/
def runUsers : List UserSpec → List Event × Bool
  | [] => ([], false)
  | u :: rest =>
    if u.raisesUnexpected then ([], true)
    else
      let t := runUsers rest
      (processUser u ++ t.1, t.2)

/-- The batch entry point around the loop (lines 291-322 of
QuestScraper.py): nothing runs when the driver cannot be set up; otherwise
the loop runs inside try/except/finally, the except logs an escaped
exception, and the finally always quits the driver. -/
def mainRun (setupOk : Bool) (users : List UserSpec) : List Event :=
  if setupOk then
    let t := runUsers users
    t.1 ++ (if t.2 then [Event.mainLoopErrorLog] else []) ++ [Event.quitDriver]
  else []

/-- Event filter for the driver-release events. -/
def isQuitEvent : Event → Bool
  | .quitDriver => true
  | _ => false

/-- A well-formed quest anchor in the sense of the claims: an href starting
with the wiki-article path, a title attribute, and a nested icon span whose
image carries one of the two recognized status classes. -/
def wellFormedAnchor (link : Node) : Bool :=
  (match link.getAttr "href" with
   | some href => pyStartsWith href "/w/"
   | none => false) &&
  (link.getAttr "title").isSome &&
  (match link.findFirst isQcIconSpan with
   | some sp =>
     match sp.findFirst isImg with
     | some img =>
       img.classList.contains "qc-complete" || img.classList.contains "qc-not-started"
     | none => false
   | none => false)

/-- Whether the title-resolution of the anchor completes without raising. -/
def titleResolves (link : Node) : Bool :=
  match resolveTitle link with
  | .ok _ => true
  | .error _ => false

/-- The status the parser computes for an anchor: the classification of the
first image inside the first icon span, `unknown` when either is
missing. -/
def anchorStatus (link : Node) : String :=
  match link.findFirst isQcIconSpan with
  | some sp =>
    match sp.findFirst isImg with
    | some img => classify img.classList
    | none => "unknown"
  | none => "unknown"

/-- The title the parser resolves for an anchor (empty when resolution
raises; only used on anchors whose resolution succeeds). -/
def anchorTitle (link : Node) : String :=
  match resolveTitle link with
  | .ok t => t
  | .error _ => ""

/-- The record a well-formed anchor is expected to produce. -/
def expectedRecord (link : Node) : QuestRecord :=
  ⟨anchorTitle link, anchorStatus link⟩

/-- The sanitizer exactly as the claim words it: keep the ASCII letters and
digits (`Char.isAlphanum` is the ASCII test) together with hyphen and
underscore, replace every other character with an underscore. -/
def sanitizeClaimed (username : String) : String :=
  String.mk (username.data.map fun c =>
    if c.isAlphanum || c = '-' || c = '_' then c else '_')

/-- Fixture: a complete quest anchor with a normal title attribute. -/
def cookLink : Node :=
  Node.elem "a" [("href", "/w/Cook"), ("title", "Cook")] []
    [Node.elem "span" [] ["rs-qc-icon"] [Node.elem "img" [] ["qc-complete"] []]]

/-- Fixture: a not-started quest anchor with a normal title attribute. -/
def demonLink : Node :=
  Node.elem "a" [("href", "/w/Demon_Slayer"), ("title", "Demon Slayer")] []
    [Node.elem "span" [] ["rs-qc-icon"] [Node.elem "img" [] ["qc-not-started"] []]]

/-- Fixture: one marker container holding the two anchors above. -/
def cookDom : List Node :=
  [Node.elem "div" [] ["div-col"] [cookLink, demonLink]]

/-- Fixture: a well-formed anchor whose title attribute trims to empty and
whose first child is a tag, so the fallback `contents[0].strip()` raises
AttributeError. -/
def bareTitleLink : Node :=
  Node.elem "a" [("href", "/w/Dragon"), ("title", " ")] []
    [Node.elem "span" [] ["rs-qc-icon"] [Node.elem "img" [] ["qc-complete"] []]]

/-- Fixture: one marker container holding `bareTitleLink`. -/
def bareTitleDom : List Node :=
  [Node.elem "div" [] ["div-col"] [bareTitleLink]]

/-- Fixture: an anchor whose title attribute trims to empty and whose first
child is a whitespace-only string, so the fallback yields an empty
title. -/
def blankTextLink : Node :=
  Node.elem "a" [("href", "/w/Rune"), ("title", " ")] []
    [Node.text "   ",
     Node.elem "span" [] ["rs-qc-icon"] [Node.elem "img" [] ["qc-complete"] []]]

/-- Fixture: one marker container holding `blankTextLink`. -/
def blankTextDom : List Node :=
  [Node.elem "div" [] ["div-col"] [blankTextLink]]

/-- Fixture: an anchor whose title attribute trims to empty and whose first
child is the icon span itself. -/
def tagFirstLink : Node :=
  Node.elem "a" [("href", "/w/Knight"), ("title", "  ")] []
    [Node.elem "span" [] ["rs-qc-icon"] [Node.elem "img" [] ["qc-not-started"] []]]

/-- Fixture: one marker container holding `tagFirstLink`. -/
def tagFirstDom : List Node :=
  [Node.elem "div" [] ["div-col"] [tagFirstLink]]

/-- Fixture: an image carrying both recognized status classes. -/
def bothImg : Node := Node.elem "img" [] ["qc-complete", "qc-not-started"] []

/-- Fixture: an icon span holding `bothImg`. -/
def bothSpan : Node := Node.elem "span" [] ["rs-qc-icon"] [bothImg]

/-- Fixture: an anchor holding `bothSpan`. -/
def bothLink : Node :=
  Node.elem "a" [("href", "/w/Both"), ("title", "Both")] [] [bothSpan]

/-- Fixture: an attempt environment in which navigation always fails, so
every attempt fails. -/
def failEnv : Nat → InteractionEnv :=
  fun _ => ⟨false, true, "Alice", true, true, "page"⟩

/-- Fixture: an attempt environment in which every step succeeds but the
input field echoes a value different from the intended username. -/
def echoMismatchEnv : InteractionEnv :=
  ⟨true, true, "Bob", true, true, "page"⟩

/-- Fixture: an attempt environment in which every step succeeds and the
echo matches the username Alice. -/
def goodEnv : InteractionEnv :=
  ⟨true, true, "Alice", true, true, "page"⟩

example : parse_data "" [] = ⟨[], 0, 0⟩ := rfl

example :
    parse_data "<html></html>" [Node.elem "html" [] [] []] = ⟨[], 0, 1⟩ := rfl

example :
    parse_data "x"
      [Node.elem "div" [] ["div-col"]
        [Node.elem "a" [("href", "/w/Cook"), ("title", "Cook")] []
          [Node.elem "span" [] ["rs-qc-icon"] [Node.elem "img" [] ["qc-complete"] []]]]] =
      ⟨[⟨"Cook", "complete"⟩], 0, 0⟩ := rfl

/-! ### Stripping lemmas -/

theorem dropWhile_length_le (p : Char → Bool) (l : List Char) :
    (l.dropWhile p).length ≤ l.length := by
  induction l with
  | nil => simp
  | cons a t ih =>
    cases h : p a
    · simp [List.dropWhile_cons, h]
    · simp only [List.dropWhile_cons, h, if_true]
      exact Nat.le_succ_of_le ih

theorem dropWhile_idem (p : Char → Bool) (l : List Char) :
    (l.dropWhile p).dropWhile p = l.dropWhile p := by
  induction l with
  | nil => rfl
  | cons a t ih => cases h : p a <;> simp [List.dropWhile_cons, h, ih]

/-- A character list with no leading whitespace. -/
def NoLeadWs (l : List Char) : Prop := l.dropWhile py_isspace = l

theorem noLeadWs_cons_false {x : Char} {t : List Char} (h : NoLeadWs (x :: t)) :
    py_isspace x = false := by
  cases hx : py_isspace x
  · rfl
  · exfalso
    have h2 : List.dropWhile py_isspace t = x :: t := by
      simpa [NoLeadWs, List.dropWhile_cons, hx] using h
    have h3 := dropWhile_length_le py_isspace t
    rw [h2] at h3
    simp at h3

theorem noLeadWs_cons {x : Char} (t : List Char) (h : py_isspace x = false) :
    NoLeadWs (x :: t) := by
  simp [NoLeadWs, List.dropWhile_cons, h]

theorem noLeadWs_append {u v : List Char} (hu : NoLeadWs u) (hv : NoLeadWs v) :
    NoLeadWs (u ++ v) := by
  cases u with
  | nil => simpa using hv
  | cons x t => exact noLeadWs_cons _ (noLeadWs_cons_false hu)

/-- A character list with neither leading nor trailing whitespace. -/
def StrippedL (l : List Char) : Prop :=
  NoLeadWs l ∧ NoLeadWs l.reverse

theorem strippedL_nil : StrippedL [] := ⟨rfl, rfl⟩

theorem strippedL_append {a b : List Char} (ha : StrippedL a) (hb : StrippedL b) :
    StrippedL (a ++ b) := by
  refine ⟨noLeadWs_append ha.1 hb.1, ?_⟩
  rw [List.reverse_append]
  exact noLeadWs_append hb.2 ha.2

theorem stripChars_eq_of_strippedL {l : List Char} (h : StrippedL l) :
    stripChars l = l := by
  unfold stripChars
  rw [h.1, h.2, List.reverse_reverse]

theorem noLeadWs_dropWhile (l : List Char) : NoLeadWs (l.dropWhile py_isspace) :=
  dropWhile_idem _ l

theorem noLeadWs_strip_right {l : List Char} (h : NoLeadWs l) :
    NoLeadWs ((l.reverse.dropWhile py_isspace).reverse) := by
  have hsuf : (l.reverse.dropWhile py_isspace).reverse.reverse <:+ l.reverse := by
    rw [List.reverse_reverse]
    exact List.dropWhile_suffix _
  obtain ⟨t, ht⟩ := List.reverse_suffix.mp hsuf
  cases hr : (l.reverse.dropWhile py_isspace).reverse with
  | nil => exact strippedL_nil.1
  | cons x r =>
    rw [hr] at ht
    rw [← ht] at h
    exact noLeadWs_cons _ (noLeadWs_cons_false h)

theorem strippedL_stripChars (l : List Char) : StrippedL (stripChars l) := by
  unfold stripChars
  constructor
  · exact noLeadWs_strip_right (noLeadWs_dropWhile l)
  · rw [List.reverse_reverse]
    exact noLeadWs_dropWhile _

/-- A string with neither leading nor trailing whitespace. -/
def StrippedS (s : String) : Prop := StrippedL s.data

theorem pyStrip_eq_of_strippedS {s : String} (h : StrippedS s) : pyStrip s = s := by
  unfold pyStrip
  rw [stripChars_eq_of_strippedL h]

theorem strippedS_pyStrip (s : String) : StrippedS (pyStrip s) :=
  strippedL_stripChars s.data

theorem strippedS_joinStr {l : List String} (h : ∀ s ∈ l, StrippedS s) :
    StrippedS (joinStr l) := by
  induction l with
  | nil => exact strippedL_nil
  | cons s rest ih =>
    unfold StrippedS
    rw [show joinStr (s :: rest) = s ++ joinStr rest from rfl, String.data_append]
    exact strippedL_append (h s (by simp)) (ih fun t ht => h t (by simp [ht]))

theorem strippedS_getTextStrip (n : Node) : StrippedS n.getTextStrip := by
  unfold Node.getTextStrip
  apply strippedS_joinStr
  intro s hs
  simp only [List.mem_map] at hs
  obtain ⟨x, _, rfl⟩ := hs
  exact strippedS_pyStrip x

theorem resolveTitle_stripped {link : Node} {t : String}
    (h : resolveTitle link = .ok t) : StrippedS t := by
  unfold resolveTitle at h
  by_cases h0 : pyStrip ((link.getAttr "title").getD "") = ""
  · rw [if_pos h0] at h
    cases hc : link.childList with
    | nil =>
      rw [hc] at h
      cases h
      exact strippedS_getTextStrip link
    | cons c rest =>
      rw [hc] at h
      cases c with
      | text s =>
        cases h
        exact strippedS_pyStrip _
      | elem tg ats cls cs => exact absurd h (by simp)
  · rw [if_neg h0] at h
    cases h
    exact strippedS_pyStrip _

/-! ### processLinks lemmas -/

theorem processLinks_append (a b : List Node) :
    processLinks (a ++ b) =
      ((processLinks a).1 ++ (processLinks b).1,
       (processLinks a).2 + (processLinks b).2) := by
  induction a with
  | nil => simp [processLinks]
  | cons l rest ih =>
    rw [List.cons_append]
    rcases hp : processLink l with e | o
    · simp only [processLinks, hp, ih]
      exact Prod.ext rfl (by omega)
    · rcases o with _ | r
      · simp only [processLinks, hp, ih]
      · simp only [processLinks, hp, ih]
        exact Prod.ext rfl rfl

theorem processLinks_skip {bad : Node} (hbad : ∀ r, processLink bad ≠ .ok (some r))
    (l1 l2 : List Node) :
    (processLinks (l1 ++ bad :: l2)).1 = (processLinks (l1 ++ l2)).1 := by
  rw [processLinks_append, processLinks_append]
  have hmid : (processLinks (bad :: l2)).1 = (processLinks l2).1 := by
    rcases hp : processLink bad with e | o
    · simp only [processLinks, hp]
    · rcases o with _ | r
      · simp only [processLinks, hp]
      · exact absurd hp (hbad r)
  rw [hmid]

theorem processLinks_skip_err {bad : Node} (hbad : processLink bad = .error ())
    (l1 l2 : List Node) :
    (processLinks (l1 ++ bad :: l2)).1 = (processLinks (l1 ++ l2)).1 ∧
    (processLinks (l1 ++ bad :: l2)).2 = (processLinks (l1 ++ l2)).2 + 1 := by
  rw [processLinks_append, processLinks_append]
  have hmid : (processLinks (bad :: l2)).1 = (processLinks l2).1 ∧
      (processLinks (bad :: l2)).2 = (processLinks l2).2 + 1 := by
    constructor <;> simp only [processLinks, hbad]
  refine ⟨by rw [hmid.1], ?_⟩
  rw [hmid.2]
  omega

theorem mem_processLinks {ls : List Node} {r : QuestRecord}
    (h : r ∈ (processLinks ls).1) : ∃ l ∈ ls, processLink l = .ok (some r) := by
  induction ls with
  | nil => simp [processLinks] at h
  | cons l rest ih =>
    rcases hp : processLink l with e | o
    · rw [show (processLinks (l :: rest)).1 = (processLinks rest).1 by
        simp only [processLinks, hp]] at h
      obtain ⟨x, hx, hx2⟩ := ih h
      exact ⟨x, by simp [hx], hx2⟩
    · rcases o with _ | r2
      · rw [show (processLinks (l :: rest)).1 = (processLinks rest).1 by
          simp only [processLinks, hp]] at h
        obtain ⟨x, hx, hx2⟩ := ih h
        exact ⟨x, by simp [hx], hx2⟩
      · rw [show (processLinks (l :: rest)).1 = r2 :: (processLinks rest).1 by
          simp only [processLinks, hp]] at h
        rcases List.mem_cons.mp h with h | h
        · exact ⟨l, by simp, by rw [hp, h]⟩
        · obtain ⟨x, hx, hx2⟩ := ih h
          exact ⟨x, by simp [hx], hx2⟩

theorem processLink_record_facts {l : Node} {r : QuestRecord}
    (h : processLink l = .ok (some r)) :
    StrippedS r.title ∧ r.status ≠ "unknown" ∧
      (r.status = "complete" ∨ r.status = "not started") := by
  rcases h1 : l.getAttr "href" with _ | href <;> simp only [processLink, h1] at h
  · exact absurd h (by simp)
  by_cases h2 : pyStartsWith href "/w/" = true
  · simp only [h2, if_true] at h
    rcases h3 : l.findFirst isQcIconSpan with _ | sp <;> simp only [h3] at h
    · exact absurd h (by simp)
    rcases h4 : sp.findFirst isImg with _ | img <;> simp only [h4] at h
    · exact absurd h (by simp)
    rcases h5 : resolveTitle l with e | tt <;> simp only [h5] at h
    · exact absurd h (by simp)
    by_cases h6 : classify img.classList = "unknown"
    · simp [h6] at h
    · rw [if_neg h6] at h
      have hr : r = ⟨tt, classify img.classList⟩ := by
        cases h
        rfl
      subst hr
      refine ⟨resolveTitle_stripped h5, h6, ?_⟩
      unfold classify at h6 ⊢
      by_cases hc : (List.contains img.classList "qc-complete") = true
      · left
        rw [if_pos hc]
      · rw [if_neg hc] at h6 ⊢
        by_cases hn : (List.contains img.classList "qc-not-started") = true
        · right
          rw [if_pos hn]
        · rw [if_neg hn] at h6
          exact absurd rfl h6
  · simp [h2] at h

/-! ### parse_data / anchor lemmas -/

theorem parse_data_eq (html : String) (dom : List Node) :
    (parse_data html dom).records = (processLinks (allQuestLinks html dom)).1 ∧
    (parse_data html dom).linkErrors = (processLinks (allQuestLinks html dom)).2 := by
  unfold parse_data allQuestLinks
  by_cases h : html = ""
  · simp [h, processLinks]
  · simp only [h, if_false]
    by_cases h2 : (findAllIn isDivCol dom).isEmpty = true
    · rw [List.isEmpty_iff.mp h2]
      simp [h2, processLinks]
    · simp [h2]

theorem processLink_wf {l : Node} {t : String}
    (hw : wellFormedAnchor l = true) (ht : resolveTitle l = .ok t) :
    processLink l = .ok (some ⟨t, anchorStatus l⟩) ∧ anchorStatus l ≠ "unknown" := by
  rcases h1 : l.getAttr "href" with _ | href <;>
    simp only [wellFormedAnchor, h1] at hw
  · simp at hw
  simp only [Bool.and_eq_true] at hw
  obtain ⟨⟨hstart, _⟩, hicon⟩ := hw
  rcases h3 : l.findFirst isQcIconSpan with _ | sp <;> simp only [h3] at hicon
  · simp at hicon
  rcases h4 : sp.findFirst isImg with _ | img <;> simp only [h4] at hicon
  · simp at hicon
  have hstat : anchorStatus l = classify img.classList := by
    simp [anchorStatus, h3, h4]
  have hclass : classify img.classList ≠ "unknown" := by
    unfold classify
    by_cases hc : (List.contains img.classList "qc-complete") = true
    · rw [if_pos hc]
      decide
    · rw [if_neg hc]
      have hn : (List.contains img.classList "qc-not-started") = true := by
        cases hcc : List.contains img.classList "qc-complete"
        · cases hnn : List.contains img.classList "qc-not-started"
          · rw [hcc, hnn] at hicon
            simp at hicon
          · rfl
        · exact absurd hcc hc
      rw [if_pos hn]
      decide
  refine ⟨?_, by rw [hstat]; exact hclass⟩
  simp only [processLink, h1, hstart, if_true, h3, h4, ht, hstat]
  rw [if_neg hclass]

theorem processLinks_all_wf {ls : List Node}
    (h : ∀ l ∈ ls, wellFormedAnchor l = true ∧ titleResolves l = true) :
    (processLinks ls).1 = ls.map expectedRecord := by
  induction ls with
  | nil => simp [processLinks]
  | cons l rest ih =>
    obtain ⟨hw, htr⟩ := h l (by simp)
    have hrest := ih (fun x hx => h x (by simp [hx]))
    rcases ht : resolveTitle l with e | t
    · simp [titleResolves, ht] at htr
    · have hp := (processLink_wf hw ht).1
      have htitle : anchorTitle l = t := by simp [anchorTitle, ht]
      simp only [processLinks, hp, List.map_cons, hrest]
      rw [show expectedRecord l = ⟨t, anchorStatus l⟩ by
        simp [expectedRecord, htitle]]

theorem processLink_no_record_unrecognized {link sp img : Node}
    (hsp : link.findFirst isQcIconSpan = some sp)
    (himg : sp.findFirst isImg = some img)
    (hc : List.contains img.classList "qc-complete" = false)
    (hn : List.contains img.classList "qc-not-started" = false) :
    ∀ r, processLink link ≠ .ok (some r) := by
  intro r h
  have hclass : classify img.classList = "unknown" := by
    unfold classify
    rw [hc, hn]
    simp
  rcases h1 : link.getAttr "href" with _ | href <;>
    simp only [processLink, h1] at h
  · simp at h
  by_cases h2 : pyStartsWith href "/w/" = true
  · simp only [h2, if_true, hsp, himg] at h
    rcases ht : resolveTitle link with e | t <;> simp only [ht] at h
    · simp at h
    · rw [if_pos hclass] at h
      simp at h
  · simp [h2] at h

theorem processLink_no_record_titleError {link : Node}
    (h : resolveTitle link = .error ()) :
    ∀ r, processLink link ≠ .ok (some r) := by
  intro r hcontra
  rcases h1 : link.getAttr "href" with _ | href <;>
    simp only [processLink, h1] at hcontra
  · simp at hcontra
  by_cases h2 : pyStartsWith href "/w/" = true
  · simp only [h2, if_true] at hcontra
    rcases h3 : link.findFirst isQcIconSpan with _ | sp <;>
      simp only [h3] at hcontra
    · simp at hcontra
    rcases h4 : sp.findFirst isImg with _ | img <;>
      simp only [h4] at hcontra
    · simp at hcontra
    rw [h] at hcontra
    simp at hcontra
  · simp [h2] at hcontra

/-! ### Driver and batch lemmas -/

theorem fetch_all_fail {env : Nat → InteractionEnv} {u : String}
    (h0 : attemptMulti (env 0) u = none) (h1 : attemptMulti (env 1) u = none)
    (h2 : attemptMulti (env 2) u = none) :
    fetch_and_interact env u = ⟨none, 3, 3, [2, 2]⟩ := by
  unfold fetch_and_interact
  rw [show List.range 3 = [0, 1, 2] from rfl]
  simp [fetchLoop, h0, h1, h2]

theorem fetch_bounds (env : Nat → InteractionEnv) (u : String) :
    (fetch_and_interact env u).attemptsMade ≤ 3 ∧
    (fetch_and_interact env u).sleepsBetween =
      List.replicate ((fetch_and_interact env u).attemptsMade - 1) 2 := by
  unfold fetch_and_interact
  rw [show List.range 3 = [0, 1, 2] from rfl]
  rcases h0 : attemptMulti (env 0) u with _ | s0
  · rcases h1 : attemptMulti (env 1) u with _ | s1
    · rcases h2 : attemptMulti (env 2) u with _ | s2
      · simp [fetchLoop, h0, h1, h2, List.replicate]
      · simp [fetchLoop, h0, h1, h2, List.replicate]
    · simp [fetchLoop, h0, h1, List.replicate]
  · simp [fetchLoop, h0]

theorem countP_quit_replicate (n : Nat) (e : Event) (h : isQuitEvent e = false) :
    (List.replicate n e).countP isQuitEvent = 0 := by
  induction n with
  | zero => rfl
  | succ k ih =>
    rw [List.replicate_succ, List.countP_cons]
    simp [h, ih]

theorem processUser_no_quit (u : UserSpec) :
    (processUser u).countP isQuitEvent = 0 := by
  unfold processUser
  rcases hr : (fetch_and_interact u.env u.name).result with _ | html <;>
    simp only [hr]
  · simp [List.countP_append, List.countP_cons, isQuitEvent, countP_quit_replicate]
  · by_cases he : html = ""
    · simp [he, List.countP_append, List.countP_cons, isQuitEvent, countP_quit_replicate]
    · by_cases hrec : (parse_data html u.dom).records.isEmpty = true <;>
        simp [he, hrec, List.countP_append, List.countP_cons, isQuitEvent,
          countP_quit_replicate]

theorem runUsers_no_quit (us : List UserSpec) :
    (runUsers us).1.countP isQuitEvent = 0 := by
  induction us with
  | nil => rfl
  | cons u rest ih =>
    cases h : u.raisesUnexpected
    · simp only [runUsers, h, Bool.false_eq_true, if_false, List.countP_append]
      rw [processUser_no_quit, ih]
    · simp [runUsers, h]

theorem runUsers_cons_ok {u : UserSpec} (h : u.raisesUnexpected = false)
    (rest : List UserSpec) :
    runUsers (u :: rest) = (processUser u ++ (runUsers rest).1, (runUsers rest).2) := by
  simp only [runUsers, h, Bool.false_eq_true, if_false]

/-! ### Claim theorems -/

/-- C1 (amended): for every HTML input whose marker containers hold N
well-formed quest anchors whose title resolution also completes without
raising (the title attribute trims non-empty, or the first child is a text
node, or the anchor has no children), extract returns exactly N records,
in document order of containers then anchors, each with the mapped status
(qc-complete gives complete, qc-not-started gives not started), no record
carries the status unknown, and an anchor whose image class matches
neither class yields no record while leaving the other records
unaffected. -/
theorem claim_c1_amended (html : String) (dom : List Node)
    (h : ∀ l ∈ allQuestLinks html dom,
      wellFormedAnchor l = true ∧ titleResolves l = true) :
    (parse_data html dom).records = (allQuestLinks html dom).map expectedRecord ∧
    (parse_data html dom).records.length = (allQuestLinks html dom).length ∧
    (∀ r ∈ (parse_data html dom).records, r.status ≠ "unknown") ∧
    (∀ (l1 l2 : List Node) (bad sp img : Node),
      bad.findFirst isQcIconSpan = some sp → sp.findFirst isImg = some img →
      List.contains img.classList "qc-complete" = false →
      List.contains img.classList "qc-not-started" = false →
      (processLinks (l1 ++ bad :: l2)).1 = (processLinks (l1 ++ l2)).1) := by
  have hrec := (parse_data_eq html dom).1
  have hmap := processLinks_all_wf h
  refine ⟨by rw [hrec, hmap], by rw [hrec, hmap, List.length_map], ?_, ?_⟩
  · intro r hr
    rw [hrec] at hr
    obtain ⟨l, _, hl⟩ := mem_processLinks hr
    exact (processLink_record_facts hl).2.1
  · intro l1 l2 bad sp img hsp himg hc hn
    exact processLinks_skip (processLink_no_record_unrecognized hsp himg hc hn) l1 l2

/-- C1 counterexample: one marker container holding one anchor that is
well-formed exactly as the claim words it (href, title attribute, icon
span with a recognized class), yet extract returns 0 records instead of 1,
because the title attribute trims to empty and the first child is the icon
span, so the fallback strip call raises and the anchor is skipped. -/
theorem claim_c1_counterexample :
    wellFormedAnchor bareTitleLink = true ∧
    allQuestLinks "x" bareTitleDom = [bareTitleLink] ∧
    (parse_data "x" bareTitleDom).records = [] :=
  ⟨rfl, rfl, rfl⟩

/-- Witness for C1 on the two-anchor fixture of the specification. -/
theorem claim_c1_witness :
    (∀ l ∈ allQuestLinks "x" cookDom,
      wellFormedAnchor l = true ∧ titleResolves l = true) ∧
    (parse_data "x" cookDom).records =
      (allQuestLinks "x" cookDom).map expectedRecord ∧
    (parse_data "x" cookDom).records =
      [⟨"Cook", "complete"⟩, ⟨"Demon Slayer", "not started"⟩] :=
  ⟨by decide, (claim_c1_amended "x" cookDom (by decide)).1, by decide⟩

/-- C2: the batch driver makes at most 3 attempts with a fixed 2-second
sleep between consecutive attempts; when all 3 attempts for a username
fail, the outcome is None, exactly 3 attempt-failure entries are logged
for that username, no output artifact is produced for it, and the batch
proceeds to the remaining usernames instead of aborting. -/
theorem claim_c2_retry_and_failure_policy
    (env : Nat → InteractionEnv) (name : String) (dom : List Node)
    (rest : List UserSpec)
    (h0 : attemptMulti (env 0) name = none)
    (h1 : attemptMulti (env 1) name = none)
    (h2 : attemptMulti (env 2) name = none) :
    (∀ (e : Nat → InteractionEnv) (u : String),
      (fetch_and_interact e u).attemptsMade ≤ 3 ∧
      (fetch_and_interact e u).sleepsBetween =
        List.replicate ((fetch_and_interact e u).attemptsMade - 1) 2) ∧
    fetch_and_interact env name = ⟨none, 3, 3, [2, 2]⟩ ∧
    processUser ⟨name, env, dom, false⟩ =
      List.replicate 3 (Event.attemptFailLog name) ++
        [Event.fetchFailedLog name, Event.sleepBetweenUsers 2] ∧
    runUsers (⟨name, env, dom, false⟩ :: rest) =
      (processUser ⟨name, env, dom, false⟩ ++ (runUsers rest).1,
       (runUsers rest).2) := by
  have hft := fetch_all_fail h0 h1 h2
  refine ⟨fun e u => fetch_bounds e u, hft, ?_, runUsers_cons_ok rfl rest⟩
  simp [processUser, hft]

/-- Witness for C2 at a concrete environment in which navigation always
fails. -/
theorem claim_c2_witness :
    attemptMulti (failEnv 0) "Alice" = none ∧
    fetch_and_interact failEnv "Alice" = ⟨none, 3, 3, [2, 2]⟩ ∧
    processUser ⟨"Alice", failEnv, [], false⟩ =
      List.replicate 3 (Event.attemptFailLog "Alice") ++
        [Event.fetchFailedLog "Alice", Event.sleepBetweenUsers 2] :=
  ⟨rfl,
   (claim_c2_retry_and_failure_policy failEnv "Alice" [] [] rfl rfl rfl).2.1,
   (claim_c2_retry_and_failure_policy failEnv "Alice" [] [] rfl rfl rfl).2.2.1⟩

/-- C3: extract returns its result as a total per-anchor fold (no exception
passes its boundary), and a failing anchor is absorbed individually: it
adds exactly one error-log entry and leaves the records produced from all
other anchors unchanged. -/
theorem claim_c3_per_anchor_isolation (html : String) (dom : List Node) :
    (parse_data html dom).records = (processLinks (allQuestLinks html dom)).1 ∧
    (∀ (l1 l2 : List Node) (bad : Node), processLink bad = .error () →
      (processLinks (l1 ++ bad :: l2)).1 = (processLinks (l1 ++ l2)).1 ∧
      (processLinks (l1 ++ bad :: l2)).2 = (processLinks (l1 ++ l2)).2 + 1) :=
  ⟨(parse_data_eq html dom).1,
   fun l1 l2 _ hbad => processLinks_skip_err hbad l1 l2⟩

/-- Witness for C3: a raising anchor between two good anchors is skipped,
adds one log entry, and does not disturb the neighboring records. -/
theorem claim_c3_witness :
    processLink bareTitleLink = .error () ∧
    (processLinks ([cookLink] ++ bareTitleLink :: [demonLink])).1 =
      (processLinks ([cookLink] ++ [demonLink])).1 ∧
    (processLinks ([cookLink] ++ bareTitleLink :: [demonLink])).2 =
      (processLinks ([cookLink] ++ [demonLink])).2 + 1 :=
  ⟨rfl,
   ((claim_c3_per_anchor_isolation "x" []).2 [cookLink] [demonLink]
     bareTitleLink rfl).1,
   ((claim_c3_per_anchor_isolation "x" []).2 [cookLink] [demonLink]
     bareTitleLink rfl).2⟩

/-- C4: when the browser session is created, the batch run releases it
exactly once, on every exit path (all users succeeding, any number
failing, or an unexpected exception escaping the loop); when setup fails,
it is never released. -/
theorem claim_c4_session_released_once (setupOk : Bool) (users : List UserSpec) :
    (mainRun setupOk users).countP isQuitEvent = if setupOk then 1 else 0 := by
  cases setupOk
  · rfl
  · simp only [mainRun, if_true]
    cases h2 : (runUsers users).2 <;>
      simp [h2, List.countP_append, runUsers_no_quit, isQuitEvent,
        List.countP_cons]

/-- C5 (amended): for every nonempty HTML input with no div-col container,
extract returns an empty sequence and writes exactly one structural
warning log entry; for the empty-string input it returns an empty sequence
without writing any log entry (the empty string is rejected by the
falsiness guard before the container search, line 153). -/
theorem claim_c5_amended (html : String) (dom : List Node)
    (hne : html ≠ "") (hno : findAllIn isDivCol dom = []) :
    parse_data html dom = ⟨[], 0, 1⟩ ∧
    (∀ dom2 : List Node, parse_data "" dom2 = ⟨[], 0, 0⟩) := by
  refine ⟨?_, fun dom2 => rfl⟩
  unfold parse_data
  rw [if_neg hne]
  simp [hno]

/-- C5 counterexample: the empty string has no div-col container, extract
returns the empty sequence, but writes zero (not exactly one) structural
warning entries. -/
theorem claim_c5_counterexample :
    findAllIn isDivCol [] = [] ∧
    (parse_data "" []).records = [] ∧
    (parse_data "" []).structuralWarnings = 0 :=
  ⟨rfl, rfl, rfl⟩

/-- Witness for C5 on a nonempty document without marker containers. -/
theorem claim_c5_witness :
    ("<p></p>" : String) ≠ "" ∧
    findAllIn isDivCol [Node.elem "p" [] [] []] = [] ∧
    parse_data "<p></p>" [Node.elem "p" [] [] []] = ⟨[], 0, 1⟩ :=
  ⟨by decide, rfl,
   (claim_c5_amended "<p></p>" [Node.elem "p" [] [] []] (by decide) rfl).1⟩

/-- C6 (amended): the sanitizer maps each character independently and
preserves length and order, but it keeps every Python-alphanumeric
character (Unicode-aware), not only [A-Za-z0-9]; on usernames made of
ASCII characters it coincides with the claimed replacement of every
character outside [A-Za-z0-9_-]. -/
theorem claim_c6_amended :
    (∀ u : String, (safe_username u).length = u.length) ∧
    (∀ u : String, (∀ c ∈ u.data, c.val < 0x80) →
      safe_username u = sanitizeClaimed u) := by
  constructor
  · intro u
    show (u.data.map fun c =>
      if py_isalnum c || c = '-' || c = '_' then c else '_').length = u.data.length
    simp
  · intro u h
    unfold safe_username sanitizeClaimed
    congr 1
    apply List.map_congr_left
    intro c hc
    have hA : py_isalnum c = c.isAlphanum := by
      unfold py_isalnum
      rw [if_pos (h c hc)]
    rw [hA]

/-- C6 counterexample: the letter with code point 0xE9 is outside
[A-Za-z0-9_-], so the claim requires it replaced by an underscore, but
Python isalnum accepts it and the code keeps it. -/
theorem claim_c6_counterexample :
    safe_username "Zezimaé" ≠ sanitizeClaimed "Zezimaé" ∧
    safe_username "Zezimaé" = "Zezimaé" ∧
    sanitizeClaimed "Zezimaé" = "Zezima_" := by
  refine ⟨by decide, by decide, by decide⟩

/-- Witness for C6 on the ASCII example of the specification. -/
theorem claim_c6_witness :
    safe_username "Zezima!" = sanitizeClaimed "Zezima!" ∧
    sanitizeClaimed "Zezima!" = "Zezima_" :=
  ⟨claim_c6_amended.2 "Zezima!" (by decide), by decide⟩

/-- C7 (amended): every record extract emits has a title with no leading
or trailing whitespace; the title is not always non-empty (see the
counterexample), so only trimmedness holds. -/
theorem claim_c7_amended (html : String) (dom : List Node) (r : QuestRecord)
    (h : r ∈ (parse_data html dom).records) : pyStrip r.title = r.title := by
  rw [(parse_data_eq html dom).1] at h
  obtain ⟨l, _, hl⟩ := mem_processLinks h
  exact pyStrip_eq_of_strippedS (processLink_record_facts hl).1

/-- C7 counterexample: an anchor whose title attribute trims to empty and
whose first child is a whitespace-only string produces a record whose
title is the empty string, contradicting non-emptiness. -/
theorem claim_c7_counterexample :
    (parse_data "x" blankTextDom).records = [⟨"", "complete"⟩] := rfl

/-- Witness for C7 on a concrete emitted record. -/
theorem claim_c7_witness :
    (⟨"Cook", "complete"⟩ : QuestRecord) ∈ (parse_data "x" cookDom).records ∧
    pyStrip "Cook" = "Cook" :=
  ⟨by decide, claim_c7_amended "x" cookDom ⟨"Cook", "complete"⟩ (by decide)⟩

/-- C8 (amended): the record title comes from the trimmed title attribute
when that is non-empty; when it trims to empty, the fallback takes the
stripped first child when that child is a text node, or the full stripped
text when the anchor has no children; when the first child is an element
node the strip call raises, and that anchor yields no record, so the
fallback chain can abort the anchor. -/
theorem claim_c8_amended (link : Node) :
    (pyStrip ((link.getAttr "title").getD "") ≠ "" →
      resolveTitle link = .ok (pyStrip ((link.getAttr "title").getD ""))) ∧
    (pyStrip ((link.getAttr "title").getD "") = "" → link.childList = [] →
      resolveTitle link = .ok link.getTextStrip) ∧
    (∀ (s : String) (rest : List Node),
      pyStrip ((link.getAttr "title").getD "") = "" →
      link.childList = Node.text s :: rest →
      resolveTitle link = .ok (pyStrip s)) ∧
    (∀ (tg : String) (ats : List (String × String)) (cls : List String)
        (cs rest : List Node),
      pyStrip ((link.getAttr "title").getD "") = "" →
      link.childList = Node.elem tg ats cls cs :: rest →
      resolveTitle link = .error () ∧
      ∀ r, processLink link ≠ .ok (some r)) := by
  refine ⟨?_, ?_, ?_, ?_⟩
  · intro h
    unfold resolveTitle
    rw [if_neg h]
  · intro h hc
    unfold resolveTitle
    rw [if_pos h, hc]
  · intro s rest h hc
    unfold resolveTitle
    rw [if_pos h, hc]
  · intro tg ats cls cs rest h hc
    have he : resolveTitle link = .error () := by
      unfold resolveTitle
      rw [if_pos h, hc]
    exact ⟨he, processLink_no_record_titleError he⟩

/-- C8 counterexample: the anchor has an href, a title attribute (trimming
to empty) and a recognized status icon, yet extract produces no record for
it and logs one per-link error, because the fallback strip call raises on
the element first child; the claimed never-aborting fallback chain does
not hold. -/
theorem claim_c8_counterexample :
    wellFormedAnchor tagFirstLink = true ∧
    parse_data "x" tagFirstDom = ⟨[], 1, 0⟩ :=
  ⟨rfl, rfl⟩

/-- Witness for C8 on the attribute case and on the raising case. -/
theorem claim_c8_witness :
    pyStrip ((cookLink.getAttr "title").getD "") ≠ "" ∧
    resolveTitle cookLink = .ok (pyStrip ((cookLink.getAttr "title").getD "")) ∧
    resolveTitle tagFirstLink = .error () :=
  ⟨by decide, (claim_c8_amended cookLink).1 (by decide),
   ((claim_c8_amended tagFirstLink).2.2.2 "span" [] ["rs-qc-icon"]
     [Node.elem "img" [] ["qc-not-started"] []] [] (by decide) rfl).1⟩

/-- C9 (amended): besides the retry count (1 versus 3), the two drivers
differ in that the batch variant verifies the echoed input value and fails
the attempt on a mismatch while the single-run variant never reads it
back; whenever the echoed value matches the username, one attempt of each
driver returns the same outcome. -/
theorem claim_c9_amended (env : InteractionEnv) (username : String)
    (h : env.echoValue = username) :
    attemptMulti env username = attemptSingle env username := by
  unfold attemptMulti attemptSingle
  simp [h]

/-- C9 counterexample: with every step succeeding but the echoed value
differing from the username, one attempt of the batch driver fails (and
the whole 3-attempt batch driver returns None) while the single-run driver
succeeds with the page markup, so the two are not identical up to retry
count. -/
theorem claim_c9_counterexample :
    attemptMulti echoMismatchEnv "Alice" = none ∧
    fetch_and_interact_single echoMismatchEnv "Alice" = some "page" ∧
    (fetch_and_interact (fun _ => echoMismatchEnv) "Alice").result = none :=
  ⟨rfl, rfl, rfl⟩

/-- Witness for C9 at an environment with a matching echo. -/
theorem claim_c9_witness :
    goodEnv.echoValue = "Alice" ∧
    attemptMulti goodEnv "Alice" = attemptSingle goodEnv "Alice" :=
  ⟨rfl, claim_c9_amended goodEnv "Alice" rfl⟩

/-- C10: the qc-complete test precedes the qc-not-started test, so a class
list containing both classifies as complete, and the per-anchor processing
of extract emits the record with status complete in that case. -/
theorem claim_c10_complete_precedence :
    (∀ cs : List String, List.contains cs "qc-complete" = true →
      classify cs = "complete") ∧
    (∀ (link sp img : Node) (href t : String),
      link.getAttr "href" = some href → pyStartsWith href "/w/" = true →
      link.findFirst isQcIconSpan = some sp → sp.findFirst isImg = some img →
      List.contains img.classList "qc-complete" = true →
      List.contains img.classList "qc-not-started" = true →
      resolveTitle link = .ok t →
      processLink link = .ok (some ⟨t, "complete"⟩)) := by
  constructor
  · intro cs h
    unfold classify
    rw [if_pos h]
  · intro link sp img href t h1 h2 h3 h4 h5 h6 h7
    have hcl : classify img.classList = "complete" := by
      unfold classify
      rw [if_pos h5]
    simp only [processLink, h1, h2, if_true, h3, h4, h7, hcl]
    simp

/-- Witness for C10 on an image carrying both status classes. -/
theorem claim_c10_witness :
    processLink bothLink = .ok (some ⟨"Both", "complete"⟩) :=
  claim_c10_complete_precedence.2 bothLink bothSpan bothImg "/w/Both" "Both"
    rfl rfl rfl rfl rfl rfl rfl
